import Mathlib

/-!
Verification development for the voice-assistant repository.

The definitions below are a shallow embedding of the repository source:
config.py, schemas.py, memory_store.py, voice_io.py, agent_nodes.py and
main.py.  Pure functions become Lean functions; code with side effects
(store writes, speech playback, the language-model call, the uuid and
clock sources) becomes explicit state passing: the store is threaded
through every operation, playback calls are collected in a list, and the
external collaborators (language model, extraction policies, uuid
generator, clock) are fields of a `Collaborators` record.  Python code
that can raise returns `Except String`.

The langgraph `InMemoryStore` is an external library collaborator; it is
modelled from the spec contract (spec section 4.1): `put` upserts by
(namespace, key); `search` without a query returns all records of a
namespace in deterministic stored order; `search` with a query returns
records of the namespace truncated to `limit` (the semantic relevance
ranking is external and is modelled as the stored order — every property
proved below is independent of this ordering); `search` with a `key`
argument filters the namespace by key equality.  Pydantic
`model_validate` is modelled as an exact schema check on tagged store
values: a value validates against a schema exactly when it was stored
with that schema tag, and a failed validation raises (`SchemaMismatch`).
-/

/-! ## config.py -/

def DEFAULT_USER_ID : String := "default-user"

def MEMORY_NAMESPACE_USER_PROFILE : String := "user_profile"

def MEMORY_NAMESPACE_BUSINESS : String := "business_knowledge"

def MEMORY_NAMESPACE_CONVERSATION : String := "conversation_history"

def MAX_CONVERSATION_HISTORY : Nat := 10

/-! ## schemas.py -/

/-- schemas.VoicePreferences.  `speaking_rate: float` is modelled as `Rat`
(the claims never inspect it). -/
structure VoicePreferences where
  preferred_voice : String
  speaking_rate : Rat
  verbosity_level : String
  interruption_handling : String
  confirmation_required : List String
deriving DecidableEq, Repr

/-- Field defaults of schemas.VoicePreferences. -/
def defaultVoicePreferences : VoicePreferences :=
  ⟨"default", 1, "medium", "pause", []⟩

/-- schemas.UserProfile.  `Dict[str, Any]` is modelled as an association
list of strings (the claims never inspect the values). -/
structure UserProfile where
  name : Option String
  role : Option String
  communication_preferences : Option (List (String × String))
  interests : List String
  expertise : List String
  voice_preferences : VoicePreferences
deriving DecidableEq, Repr

/-- schemas.BusinessEntity. -/
structure BusinessEntity where
  name : String
  entity_type : String
  attributes : List (String × String)
  relationships : List (List (String × String))
deriving DecidableEq, Repr

/-- A `datetime` value as far as the source uses one: `datetime.now()`
produces it, `isoformat`/`fromisoformat` round-trip it (modelled as
storing the structured value), and `strftime` renders it. -/
structure DateTime where
  year : Nat
  month : Nat
  day : Nat
  hour : Nat
  minute : Nat
deriving DecidableEq, Repr

/-- schemas.ConversationContext. -/
structure ConversationContext where
  recent_topics : List String
  unresolved_questions : List String
  interrupted_flows : List (List (String × String))
  last_interaction : Option DateTime
deriving DecidableEq, Repr

/-- The default-constructed `ConversationContext()`. -/
def defaultConversationContext : ConversationContext := ⟨[], [], [], none⟩

/-- A conversation message dict: role in user/assistant/system, content. -/
structure Message where
  role : String
  content : String
deriving DecidableEq, Repr

/-- The dict written by `MemoryManager.save_conversation`:
timestamp plus the message list. -/
structure ConvRecord where
  timestamp : DateTime
  messages : List Message
deriving DecidableEq, Repr

/-! ## The store (langgraph InMemoryStore, modelled from spec section 4.1) -/

/-- A value held by the store, tagged with the schema it was written
under.  `model_validate` against a schema succeeds exactly on values
carrying that schema tag. -/
inductive StoreValue where
  | profile (p : UserProfile)
  | business (b : BusinessEntity)
  | conv (r : ConvRecord)
  | context (c : ConversationContext)
deriving DecidableEq, Repr

/-- One stored record: tuple namespace (memory-kind, user-id), key, value. -/
structure StoreRecord where
  ns : String × String
  key : String
  value : StoreValue
deriving DecidableEq, Repr

/-- The store state: the ordered list of records. -/
structure Store where
  records : List StoreRecord
deriving DecidableEq, Repr

def emptyStore : Store := ⟨[]⟩

/-- `store.put(namespace, key, value)`: upsert.  If a record with this
namespace and key exists it is overwritten in place, otherwise the new
record is appended. -/
def Store.put (s : Store) (ns : String × String) (k : String) (v : StoreValue) : Store :=
  if s.records.any (fun r => decide (r.ns = ns ∧ r.key = k)) then
    ⟨s.records.map (fun r => if r.ns = ns ∧ r.key = k then ⟨ns, k, v⟩ else r)⟩
  else
    ⟨s.records ++ [⟨ns, k, v⟩]⟩

/-- `store.search(namespace)`: all records of the namespace, stored order. -/
def Store.searchNs (s : Store) (ns : String × String) : List StoreRecord :=
  s.records.filter (fun r => decide (r.ns = ns))

/-- `store.search(namespace, query=q, limit=n)`: records of the namespace
ranked by relevance and truncated to `limit`.  The external semantic
ranking is modelled as the stored order; the query does not change which
records are eligible. -/
def Store.searchQuery (s : Store) (ns : String × String) (_query : String) (limit : Nat) :
    List StoreRecord :=
  (s.searchNs ns).take limit

/-- `store.search(namespace, key=k)`: records of the namespace whose key
equals `k`. -/
def Store.searchKey (s : Store) (ns : String × String) (k : String) : List StoreRecord :=
  s.records.filter (fun r => decide (r.ns = ns ∧ r.key = k))

/-! ## Schema validation (pydantic model_validate) -/

/-- `UserProfile.model_validate(value)`: succeeds exactly on a value
stored under the UserProfile schema; otherwise raises (SchemaMismatch).
No coercion, truncation or field dropping happens: the stored profile is
returned unchanged. -/
def validateProfile : StoreValue → Except String UserProfile
  | .profile p => .ok p
  | _ => .error "SchemaMismatch"

/-- `BusinessEntity.model_validate(value)`. -/
def validateBusiness : StoreValue → Except String BusinessEntity
  | .business b => .ok b
  | _ => .error "SchemaMismatch"

/-- `ConversationContext.model_validate(value)`. -/
def validateContext : StoreValue → Except String ConversationContext
  | .context c => .ok c
  | _ => .error "SchemaMismatch"

/-- A Python list comprehension `[f(item) for item in items]` whose body
can raise: the first failure aborts the whole call. -/
def mapValidate {α : Type} (f : StoreValue → Except String α) :
    List StoreRecord → Except String (List α)
  | [] => .ok []
  | r :: rs => do
    let a ← f r.value
    let as ← mapValidate f rs
    .ok (a :: as)

/-! ## memory_store.py — MemoryManager -/

/-- `MemoryManager.get_user_profile`: namespace-scoped lookup with no
query; first result validated as UserProfile, or None. -/
def MemoryManager.get_user_profile (s : Store) (user_id : String) :
    Except String (Option UserProfile) :=
  match s.searchNs (MEMORY_NAMESPACE_USER_PROFILE, user_id) with
  | [] => .ok none
  | r :: _ => (validateProfile r.value).map some

/-- `MemoryManager.save_conversation`: appends a conversation record
under a freshly generated uuid key with the capture timestamp.  The
uuid4 draw and `datetime.now()` are passed in explicitly (`k`, `now`). -/
def MemoryManager.save_conversation (s : Store) (messages : List Message)
    (user_id : String) (now : DateTime) (k : String) : Store :=
  s.put (MEMORY_NAMESPACE_CONVERSATION, user_id) k (.conv ⟨now, messages⟩)

/-- `MemoryManager.get_conversation_context`: reads the fixed-key
"context" record; validates it when present; otherwise creates, persists
and returns a default-valued context.  Returns the context together with
the (possibly written-to) store. -/
def MemoryManager.get_conversation_context (s : Store) (user_id : String) :
    Except String (ConversationContext × Store) :=
  match s.searchKey (MEMORY_NAMESPACE_CONVERSATION, user_id) "context" with
  | r :: _ => (validateContext r.value).map (fun c => (c, s))
  | [] =>
    let context := defaultConversationContext
    .ok (context, s.put (MEMORY_NAMESPACE_CONVERSATION, user_id) "context" (.context context))

/-- `MemoryManager.update_conversation_context`: overwrite of the
fixed-key "context" record with `context.model_dump()`. -/
def MemoryManager.update_conversation_context (s : Store) (context : ConversationContext)
    (user_id : String) : Store :=
  s.put (MEMORY_NAMESPACE_CONVERSATION, user_id) "context" (.context context)

/-- One entry of the dict returned by `MemoryManager.search_memory`:
a list of validated profiles, a list of validated business entities, or
a list of raw conversation values (the source keeps `item.value` raw for
the conversation kind). -/
inductive MemEntry where
  | profiles (l : List UserProfile)
  | businesses (l : List BusinessEntity)
  | convs (l : List StoreValue)
deriving DecidableEq, Repr

/-- A Python dict from string keys to search-result lists, as an ordered
association list (insertion order). -/
abbrev MemoryDict := List (String × MemEntry)

/-- `d.get(k)`: None when the key is absent. -/
def dictGet (d : MemoryDict) (k : String) : Option MemEntry :=
  match d with
  | [] => none
  | (k2, e) :: rest => if k2 = k then some e else dictGet rest k

/-- `MemoryManager.search_memory(query, user_id)`: fans the query out
across the three namespaces with per-kind caps 1/5/3, validates profile
and business hits, keeps conversation hits raw but filters out the
fixed-key "context" record, and returns the three-key dict.  (The source
initialises the dict with empty lists and conditionally overwrites each
entry; the net result is identical.) -/
def MemoryManager.search_memory (s : Store) (query : String) (user_id : String) :
    Except String MemoryDict := do
  let profile_results := s.searchQuery (MEMORY_NAMESPACE_USER_PROFILE, user_id) query 1
  let ups ← mapValidate validateProfile profile_results
  let business_results := s.searchQuery (MEMORY_NAMESPACE_BUSINESS, user_id) query 5
  let bes ← mapValidate validateBusiness business_results
  let conversation_results := s.searchQuery (MEMORY_NAMESPACE_CONVERSATION, user_id) query 3
  let convs := (conversation_results.filter (fun r => decide (r.key ≠ "context"))).map
    (fun r => r.value)
  .ok [("user_profile", MemEntry.profiles ups),
       ("business_knowledge", MemEntry.businesses bes),
       ("conversation_history", MemEntry.convs convs)]

/-! ## voice_io.py -/

/-- Python regex whitespace (the characters of the `\s` class that the
claims can meet; a non-member makes `\S` match). -/
def isSpaceChar (c : Char) : Bool :=
  c = ' ' || c = '\t' || c = '\n' || c = '\r' || c = '\x0b' || c = '\x0c'

/-- After the literal `http`, match the optional `s` and then `://`;
return the remainder.  The two alternatives are distinguished by their
first character, so this implements the regex backtracking of
`s?://` exactly. -/
def matchScheme : List Char → Option (List Char)
  | 's' :: ':' :: '/' :: '/' :: rest => some rest
  | ':' :: '/' :: '/' :: rest => some rest
  | _ => none

/-- Try to match the regex `https?://\S+` at the head of the list
(greedy: the match extends over every following non-space character).
Returns the remainder after the match, or none. -/
def matchURL : List Char → Option (List Char)
  | 'h' :: 't' :: 't' :: 'p' :: rest =>
    match matchScheme rest with
    | some rest2 =>
      match rest2 with
      | [] => none
      | c :: _ =>
        if isSpaceChar c then none
        else some (rest2.dropWhile (fun d => !isSpaceChar d))
    | none => none
  | _ => none

/-- `re.sub(r'https?://\S+', 'link', text)`: scan left to right; at each
position replace a match by `link` and continue after it.  The
recursion is bounded by a fuel argument; every step consumes at least
one character, so fuel equal to the length of the list makes the bound
unreachable. -/
def subURLGo : Nat → List Char → List Char
  | 0, l => l
  | _ + 1, [] => []
  | fuel + 1, c :: cs =>
    match matchURL (c :: cs) with
    | some rest => 'l' :: 'i' :: 'n' :: 'k' :: subURLGo fuel rest
    | none => c :: subURLGo fuel cs

def subURL (l : List Char) : List Char := subURLGo l.length l

/-- `re.sub(r'\n\n+', '\n', text)`: collapse every run of two or more
newlines to a single newline (position-wise, only the last newline of a
run is kept; the resulting string is the same). -/
def collapseNL : List Char → List Char
  | [] => []
  | c :: cs =>
    if c = '\n' && cs.head? = some '\n' then collapseNL cs
    else c :: collapseNL cs

/-- `text.replace('**', '')`: remove occurrences of `**` left to right,
non-overlapping. -/
def removeStars : List Char → List Char
  | [] => []
  | c :: cs =>
    if c = '*' && cs.head? = some '*' then
      match cs with
      | _ :: rest => removeStars rest
      | [] => []
    else c :: removeStars cs

/-- voice_io.optimize_for_speech: URL replacement, then newline
collapsing, then `**` removal, in source order. -/
def optimize_for_speech (text : String) : String :=
  String.mk (removeStars (collapseNL (subURL text.data)))

/-- Does the list contain a `https?://\S+` match at some position? -/
def hasURL : List Char → Bool
  | [] => false
  | c :: cs => (matchURL (c :: cs)).isSome || hasURL cs

/-- Does the list contain two adjacent newlines? -/
def hasDoubleNL : List Char → Bool
  | [] => false
  | c :: cs => (c = '\n' && cs.head? = some '\n') || hasDoubleNL cs

/-- Does the list contain two adjacent stars? -/
def hasStarStar : List Char → Bool
  | [] => false
  | c :: cs => (c = '*' && cs.head? = some '*') || hasStarStar cs

/-! ## agent_nodes.py -/

/-- agent_nodes.AssistantState.  `memory_search_results` is None until
the RETRIEVE stage sets it. -/
structure AssistantState where
  messages : List Message
  user_id : String
  memory_search_results : Option MemoryDict
  spoken_response : Option String
deriving DecidableEq, Repr

/-- The external collaborators used by a turn, passed in explicitly:
the completion model, the two extraction policies (which rewrite the
store and can fail), and the uuid and clock draws consumed by
`save_conversation`. -/
structure Collaborators where
  llm : List Message → String
  updateProfile : List Message → String → Store → Except String Store
  updateBusiness : List Message → String → Store → Except String Store
  now : DateTime
  freshKey : String

/-- agent_nodes.voice_input (the CAPTURE stage), with the transcription
returned by the capture collaborator passed in.  Returns the new state
together with the list of texts handed to the playback collaborator. -/
def voice_input (transcription : String) (state : AssistantState) :
    AssistantState × List String :=
  if transcription = "" then
    (state, ["I didn\x27t catch that. Could you please try again?"])
  else
    ({ state with messages := state.messages ++ [⟨"user", transcription⟩] }, [])

/-- The reversed-iteration search for the most recent user-role message. -/
def lastUserMessage : List Message → Option String
  | [] => none
  | m :: rest =>
    match lastUserMessage rest with
    | some c => some c
    | none => if m.role = "user" then some m.content else none

/-- agent_nodes.search_memory (the RETRIEVE stage).  With no messages, or
no user-role message, it stores the empty dict; otherwise it stores the
result of `MemoryManager.search_memory` for the last user message. -/
def search_memory_node (store : Store) (state : AssistantState) :
    Except String AssistantState :=
  if state.messages = [] then
    .ok { state with memory_search_results := some [] }
  else
    match lastUserMessage state.messages with
    | none => .ok { state with memory_search_results := some [] }
    | some q => do
      let results ← MemoryManager.search_memory store q state.user_id
      .ok { state with memory_search_results := some results }

/-- Python `str.capitalize()`: first character upper-cased, the rest
lower-cased. -/
def pyCapitalize (s : String) : String :=
  match s.data with
  | [] => ""
  | c :: cs => String.mk (c.toUpper :: cs.map Char.toLower)

/-- Zero-padded decimal rendering used by `strftime`. -/
def pad2 (n : Nat) : String :=
  if n < 10 then "0" ++ toString n else toString n

def pad4 (n : Nat) : String :=
  if n < 10 then "000" ++ toString n
  else if n < 100 then "00" ++ toString n
  else if n < 1000 then "0" ++ toString n
  else toString n

/-- `timestamp.strftime('%Y-%m-%d %H:%M')`. -/
def formatTimestamp (t : DateTime) : String :=
  pad4 t.year ++ "-" ++ pad2 t.month ++ "-" ++ pad2 t.day ++ " " ++
    pad2 t.hour ++ ":" ++ pad2 t.minute

/-- One formatted message line of a past conversation: role capitalized,
content truncated to its first 100 characters plus an ellipsis when
longer than 100. -/
def formatConvMsg (m : Message) : String :=
  "  * " ++ pyCapitalize m.role ++ ": " ++
    (if m.content.length > 100 then m.content.take 100 ++ "..." else m.content)

/-- The lines contributed by one user profile
(each `if profile.field:` guard excludes None, the empty string and the
empty list). -/
def profileLines (p : UserProfile) : List String :=
  ["USER PROFILE:"]
  ++ (match p.name with
      | some n => if n = "" then [] else ["- Name: " ++ n]
      | none => [])
  ++ (match p.role with
      | some r => if r = "" then [] else ["- Role: " ++ r]
      | none => [])
  ++ (if p.interests = [] then []
      else ["- Interests: " ++ String.intercalate ", " p.interests])
  ++ (if p.expertise = [] then []
      else ["- Expertise: " ++ String.intercalate ", " p.expertise])

/-- The lines contributed by one business entity. -/
def entityLines (e : BusinessEntity) : List String :=
  ("- " ++ pyCapitalize e.entity_type ++ ": " ++ e.name)
  :: e.attributes.map (fun kv => "  * " ++ kv.1 ++ ": " ++ kv.2)

/-- The lines contributed by one raw conversation value: the parsed
timestamp line, then at most the last two messages.  A value that is not
a conversation record lacks the "timestamp" entry and raises, as the
source would. -/
def convLines : StoreValue → Except String (List String)
  | .conv r =>
    .ok (("- Date: " ++ formatTimestamp r.timestamp)
      :: (r.messages.drop (r.messages.length - 2)).map formatConvMsg)
  | _ => .error "KeyError: timestamp"

/-- Sequenced formatting of the conversation values. -/
def convLinesAll : List StoreValue → Except String (List String)
  | [] => .ok []
  | v :: vs => do
    let l ← convLines v
    let ls ← convLinesAll vs
    .ok (l ++ ls)

/-- agent_nodes._format_memory_for_prompt.  Each `memory_results.get(k)`
guard is falsy when the key is absent or its list is empty.  The
business and conversation headers carry the leading newline of the
source literals. -/
def format_memory_for_prompt (memory_results : MemoryDict) : Except String String := do
  let part1 : List String :=
    match dictGet memory_results "user_profile" with
    | some (.profiles (p :: _)) => profileLines p
    | _ => []
  let part2 : List String :=
    match dictGet memory_results "business_knowledge" with
    | some (.businesses (e :: es)) =>
      "\nBUSINESS KNOWLEDGE:" :: ((e :: es).map entityLines).flatten
    | _ => []
  let part3 ←
    match dictGet memory_results "conversation_history" with
    | some (.convs (v :: vs)) => do
      let ls ← convLinesAll (v :: vs)
      Except.ok ("\nRELEVANT PAST CONVERSATIONS:" :: ls)
    | _ => Except.ok []
  .ok (String.intercalate "\n" (part1 ++ part2 ++ part3))

/-- The system instruction built in agent_nodes.generate_response. -/
def system_prompt (memory_context : String) (user_id : String) : String :=
  "You are a helpful voice assistant with access to the user\x27s personal and business information.\n        \nYou should use the memory context provided to personalize your responses.\n\nWhen responding:\n1. Be concise and conversational - you are speaking, not writing\n2. Use natural language and avoid complex structures\n3. Reference relevant information from the user\x27s profile or business knowledge\n4. Keep your responses short enough to be easily spoken\n\nMemory context:\n"
  ++ memory_context ++ "\n\nUser ID: " ++ user_id

/-- agent_nodes._update_memory: profile update, then business-knowledge
update, then conversation save, sequentially; a failure of either
extraction policy aborts the sequence and propagates. -/
def update_memory (C : Collaborators) (messages : List Message) (user_id : String)
    (store : Store) : Except String Store := do
  let s1 ← C.updateProfile messages user_id store
  let s2 ← C.updateBusiness messages user_id s1
  .ok (MemoryManager.save_conversation s2 messages user_id C.now C.freshKey)

/-- agent_nodes.generate_response (the GENERATE stage).  With no
messages it is a passthrough.  Otherwise: format the retrieved memory,
issue one completion over the system instruction plus the last
MAX_CONVERSATION_HISTORY messages, append the assistant message, derive
the speech-optimized rendering, then run the memory-update sequence.
There is no exception handler around the memory update: its failure
propagates and the updated state is never returned. -/
def generate_response (C : Collaborators) (store : Store) (state : AssistantState) :
    Except String (AssistantState × Store) :=
  if state.messages = [] then .ok (state, store)
  else do
    let memory_context ← format_memory_for_prompt (state.memory_search_results.getD [])
    let system_message : Message := ⟨"system", system_prompt memory_context state.user_id⟩
    let response_content := C.llm
      (system_message :: state.messages.drop (state.messages.length - MAX_CONVERSATION_HISTORY))
    let messages := state.messages ++ [⟨"assistant", response_content⟩]
    let spoken_response := optimize_for_speech response_content
    let store2 ← update_memory C messages state.user_id store
    .ok ({ state with messages := messages, spoken_response := some spoken_response }, store2)

/-- agent_nodes.voice_output (the RENDER stage): speak the spoken
response when it is truthy (present and non-empty); state unchanged. -/
def voice_output (state : AssistantState) : AssistantState × List String :=
  match state.spoken_response with
  | some r => if r = "" then (state, []) else (state, [r])
  | none => (state, [])

/-- One turn of the graph built in main.create_assistant: the
unconditional edge chain voice_input -> search_memory ->
generate_response -> voice_output.  Returns the final state, the final
store and the list of playback calls of the turn. -/
def run_turn (C : Collaborators) (transcription : String) (store : Store)
    (state : AssistantState) : Except String (AssistantState × Store × List String) := do
  let (s1, calls1) := voice_input transcription state
  let s2 ← search_memory_node store s1
  let (s3, store2) ← generate_response C store s2
  let (s4, calls2) := voice_output s3
  .ok (s4, store2, calls1 ++ calls2)


/-! ## Store lemmas -/

lemma filter_map_overwrite_head (ns : String × String) (k : String) (v : StoreValue) :
    ∀ (l : List StoreRecord), l.any (fun r => decide (r.ns = ns ∧ r.key = k)) = true →
      ((l.map (fun r => if r.ns = ns ∧ r.key = k then (⟨ns, k, v⟩ : StoreRecord) else r)).filter
        (fun r => decide (r.ns = ns ∧ r.key = k))).head? = some ⟨ns, k, v⟩
  | [], h => by simp at h
  | r :: rs, h => by
    by_cases hr : r.ns = ns ∧ r.key = k
    · simp [List.filter, hr]
    · have h2 : rs.any (fun r => decide (r.ns = ns ∧ r.key = k)) = true := by
        simpa [hr] using h
      simpa [List.filter, hr] using filter_map_overwrite_head ns k v rs h2

/-- After a `put`, the first record found by a key-filtered search of the
same namespace and key is the record just written. -/
lemma searchKey_put_head (s : Store) (ns : String × String) (k : String) (v : StoreValue) :
    ((s.put ns k v).searchKey ns k).head? = some ⟨ns, k, v⟩ := by
  unfold Store.put
  cases hb : s.records.any (fun r => decide (r.ns = ns ∧ r.key = k)) with
  | true =>
    rw [if_pos rfl]
    exact filter_map_overwrite_head ns k v s.records hb
  | false =>
    rw [if_neg (by simp)]
    show ((s.records ++ ([⟨ns, k, v⟩] : List StoreRecord)).filter
      (fun r => decide (r.ns = ns ∧ r.key = k))).head? = some ⟨ns, k, v⟩
    have hnil : s.records.filter (fun r => decide (r.ns = ns ∧ r.key = k)) = [] := by
      rw [List.any_eq_false] at hb
      exact List.filter_eq_nil_iff.mpr hb
    rw [List.filter_append, hnil]
    simp [List.filter]

/-!
Claim C5.  Source: MemoryManager.get_conversation_context
(memory_store.py lines 134-155).
-/

/-- Claim C5 (confirmed): for every user id and store whose "context"
record, when present, validates as a ConversationContext, calling
get_conversation_context twice in a row with no intervening update
returns identical ConversationContext content both times and only the
first call performs a store write: when no context record exists the
first call creates and persists the default-valued context (so the
context record exists after first access), and when a context record
already exists the call performs no write. -/
theorem C5_get_context_idempotent (s : Store) (u : String)
    (H : ∀ r rest, s.searchKey (MEMORY_NAMESPACE_CONVERSATION, u) "context" = r :: rest →
      ∃ c, r.value = StoreValue.context c) :
    ∃ c1 s1,
      MemoryManager.get_conversation_context s u = .ok (c1, s1) ∧
      MemoryManager.get_conversation_context s1 u = .ok (c1, s1) ∧
      (s.searchKey (MEMORY_NAMESPACE_CONVERSATION, u) "context" = [] →
        s1 = s.put (MEMORY_NAMESPACE_CONVERSATION, u) "context"
          (StoreValue.context defaultConversationContext) ∧
        c1 = defaultConversationContext) ∧
      (s.searchKey (MEMORY_NAMESPACE_CONVERSATION, u) "context" ≠ [] → s1 = s) := by
  cases hl : s.searchKey (MEMORY_NAMESPACE_CONVERSATION, u) "context" with
  | nil =>
    refine ⟨defaultConversationContext,
      s.put (MEMORY_NAMESPACE_CONVERSATION, u) "context"
        (StoreValue.context defaultConversationContext), ?_, ?_, ?_, ?_⟩
    · simp [MemoryManager.get_conversation_context, hl]
    · have hhead := searchKey_put_head s (MEMORY_NAMESPACE_CONVERSATION, u) "context"
        (StoreValue.context defaultConversationContext)
      cases hl2 : (s.put (MEMORY_NAMESPACE_CONVERSATION, u) "context"
          (StoreValue.context defaultConversationContext)).searchKey
          (MEMORY_NAMESPACE_CONVERSATION, u) "context" with
      | nil => rw [hl2] at hhead; simp at hhead
      | cons r rest =>
        rw [hl2] at hhead
        simp only [List.head?_cons, Option.some.injEq] at hhead
        subst hhead
        simp [MemoryManager.get_conversation_context, hl2, validateContext, Except.map]
    · exact fun _ => ⟨rfl, rfl⟩
    · intro hne; exact absurd rfl hne
  | cons r rest =>
    obtain ⟨c, hc⟩ := H r rest hl
    refine ⟨c, s, ?_, ?_, ?_, ?_⟩
    · simp [MemoryManager.get_conversation_context, hl, hc, validateContext, Except.map]
    · simp [MemoryManager.get_conversation_context, hl, hc, validateContext, Except.map]
    · intro h0; exact absurd h0 (by simp)
    · exact fun _ => rfl

/-- Witness for C5 at the empty store: the context record is absent, so
the first call writes the default context and the second call reads the
identical content back without writing. -/
theorem C5_witness :
    ∃ c1 s1,
      MemoryManager.get_conversation_context emptyStore "u" = .ok (c1, s1) ∧
      MemoryManager.get_conversation_context s1 "u" = .ok (c1, s1) ∧
      (emptyStore.searchKey (MEMORY_NAMESPACE_CONVERSATION, "u") "context" = [] →
        s1 = emptyStore.put (MEMORY_NAMESPACE_CONVERSATION, "u") "context"
          (StoreValue.context defaultConversationContext) ∧
        c1 = defaultConversationContext) ∧
      (emptyStore.searchKey (MEMORY_NAMESPACE_CONVERSATION, "u") "context" ≠ [] →
        s1 = emptyStore) :=
  C5_get_context_idempotent emptyStore "u"
    (by intro r rest h; simp [emptyStore, Store.searchKey] at h)

/-!
Claim C6.  Source: MemoryManager.update_conversation_context
(memory_store.py lines 157-167) and get_conversation_context
(lines 134-155).
-/

/-- Claim C6 (confirmed): for every ConversationContext value, user id
and store, writing the context with update_conversation_context and then
reading it back with get_conversation_context returns exactly the value
written, with no loss or alteration of any field (and the read performs
no further write). -/
theorem C6_context_round_trip (s : Store) (c : ConversationContext) (u : String) :
    MemoryManager.get_conversation_context
        (MemoryManager.update_conversation_context s c u) u =
      .ok (c, MemoryManager.update_conversation_context s c u) := by
  unfold MemoryManager.update_conversation_context
  have hhead := searchKey_put_head s (MEMORY_NAMESPACE_CONVERSATION, u) "context"
    (StoreValue.context c)
  cases hl : (s.put (MEMORY_NAMESPACE_CONVERSATION, u) "context"
      (StoreValue.context c)).searchKey (MEMORY_NAMESPACE_CONVERSATION, u) "context" with
  | nil => rw [hl] at hhead; simp at hhead
  | cons r rest =>
    rw [hl] at hhead
    simp only [List.head?_cons, Option.some.injEq] at hhead
    subst hhead
    simp [MemoryManager.get_conversation_context, hl, validateContext, Except.map]

/-- A `put` under a key that is fresh for its namespace appends the new
record, leaving every existing record in place. -/
lemma put_fresh_append (s : Store) (ns : String × String) (k : String) (v : StoreValue)
    (h : ∀ r ∈ s.records, ¬(r.ns = ns ∧ r.key = k)) :
    (s.put ns k v).records = s.records ++ [⟨ns, k, v⟩] := by
  have hany : s.records.any (fun r => decide (r.ns = ns ∧ r.key = k)) = false := by
    rw [List.any_eq_false]
    intro r hr
    simp only [decide_eq_true_eq]
    exact h r hr
  unfold Store.put
  rw [if_neg (by rw [hany]; exact Bool.false_ne_true)]

/-!
Claim C7.  Source: MemoryManager.save_conversation (memory_store.py
lines 112-132).  The freshness of the two uuid4 draws is the external
uuid contract and enters as the hypotheses: the two keys differ and
neither is already used in the conversation namespace.
-/

/-- Claim C7 (confirmed): saving two conversations for the same user
under fresh, distinct generated keys appends two records, each carrying
its capture timestamp; no previously stored record (in particular not
the fixed-key context record) is overwritten, and both conversations
remain independently retrievable from the conversation namespace. -/
theorem C7_save_conversation_append_only (s : Store) (m1 m2 : List Message) (u : String)
    (t1 t2 : DateTime) (k1 k2 : String)
    (hk : k1 ≠ k2)
    (h1 : ∀ r ∈ s.records, ¬(r.ns = (MEMORY_NAMESPACE_CONVERSATION, u) ∧ r.key = k1))
    (h2 : ∀ r ∈ s.records, ¬(r.ns = (MEMORY_NAMESPACE_CONVERSATION, u) ∧ r.key = k2)) :
    (MemoryManager.save_conversation
        (MemoryManager.save_conversation s m1 u t1 k1) m2 u t2 k2).records =
      s.records ++ [⟨(MEMORY_NAMESPACE_CONVERSATION, u), k1, StoreValue.conv ⟨t1, m1⟩⟩,
        ⟨(MEMORY_NAMESPACE_CONVERSATION, u), k2, StoreValue.conv ⟨t2, m2⟩⟩] ∧
    (MemoryManager.save_conversation
        (MemoryManager.save_conversation s m1 u t1 k1) m2 u t2 k2).searchKey
        (MEMORY_NAMESPACE_CONVERSATION, u) k1 =
      [⟨(MEMORY_NAMESPACE_CONVERSATION, u), k1, StoreValue.conv ⟨t1, m1⟩⟩] ∧
    (MemoryManager.save_conversation
        (MemoryManager.save_conversation s m1 u t1 k1) m2 u t2 k2).searchKey
        (MEMORY_NAMESPACE_CONVERSATION, u) k2 =
      [⟨(MEMORY_NAMESPACE_CONVERSATION, u), k2, StoreValue.conv ⟨t2, m2⟩⟩] := by
  have hs1 : (MemoryManager.save_conversation s m1 u t1 k1).records =
      s.records ++ [⟨(MEMORY_NAMESPACE_CONVERSATION, u), k1, StoreValue.conv ⟨t1, m1⟩⟩] :=
    put_fresh_append s (MEMORY_NAMESPACE_CONVERSATION, u) k1 (StoreValue.conv ⟨t1, m1⟩) h1
  have h2' : ∀ r ∈ (MemoryManager.save_conversation s m1 u t1 k1).records,
      ¬(r.ns = (MEMORY_NAMESPACE_CONVERSATION, u) ∧ r.key = k2) := by
    rw [hs1]
    intro r hr
    rcases List.mem_append.mp hr with hl | hr1
    · exact h2 r hl
    · have : r = ⟨(MEMORY_NAMESPACE_CONVERSATION, u), k1, StoreValue.conv ⟨t1, m1⟩⟩ := by
        simpa using hr1
      subst this
      intro hc
      exact hk hc.2
  have hs2 : (MemoryManager.save_conversation
      (MemoryManager.save_conversation s m1 u t1 k1) m2 u t2 k2).records =
      s.records ++ [⟨(MEMORY_NAMESPACE_CONVERSATION, u), k1, StoreValue.conv ⟨t1, m1⟩⟩,
        ⟨(MEMORY_NAMESPACE_CONVERSATION, u), k2, StoreValue.conv ⟨t2, m2⟩⟩] := by
    have := put_fresh_append (MemoryManager.save_conversation s m1 u t1 k1)
      (MEMORY_NAMESPACE_CONVERSATION, u) k2 (StoreValue.conv ⟨t2, m2⟩) h2'
    rw [hs1] at this
    simpa using this
  have hnil1 : s.records.filter
      (fun r => decide (r.ns = (MEMORY_NAMESPACE_CONVERSATION, u) ∧ r.key = k1)) = [] := by
    refine List.filter_eq_nil_iff.mpr ?_
    intro r hr
    simp only [decide_eq_true_eq]
    exact h1 r hr
  have hnil2 : s.records.filter
      (fun r => decide (r.ns = (MEMORY_NAMESPACE_CONVERSATION, u) ∧ r.key = k2)) = [] := by
    refine List.filter_eq_nil_iff.mpr ?_
    intro r hr
    simp only [decide_eq_true_eq]
    exact h2 r hr
  refine ⟨hs2, ?_, ?_⟩
  · show ((MemoryManager.save_conversation
        (MemoryManager.save_conversation s m1 u t1 k1) m2 u t2 k2).records.filter
        (fun r => decide (r.ns = (MEMORY_NAMESPACE_CONVERSATION, u) ∧ r.key = k1))) = _
    rw [hs2, List.filter_append, hnil1]
    simp [List.filter, Ne.symm hk]
  · show ((MemoryManager.save_conversation
        (MemoryManager.save_conversation s m1 u t1 k1) m2 u t2 k2).records.filter
        (fun r => decide (r.ns = (MEMORY_NAMESPACE_CONVERSATION, u) ∧ r.key = k2))) = _
    rw [hs2, List.filter_append, hnil2]
    simp [List.filter, hk]

/-- A store holding one context record, used as the C7 witness state. -/
def storeWithContext : Store :=
  ⟨[⟨(MEMORY_NAMESPACE_CONVERSATION, "u"), "context",
    StoreValue.context defaultConversationContext⟩]⟩

/-- Witness for C7: two saves with the concrete fresh keys "a" and "b"
on a store already holding the context record. -/
theorem C7_witness :
    (MemoryManager.save_conversation
        (MemoryManager.save_conversation storeWithContext [⟨"user", "hi"⟩] "u"
          ⟨2025, 1, 1, 0, 0⟩ "a") [⟨"user", "bye"⟩] "u" ⟨2025, 1, 2, 0, 0⟩ "b").records =
      storeWithContext.records ++
        [⟨(MEMORY_NAMESPACE_CONVERSATION, "u"), "a",
          StoreValue.conv ⟨⟨2025, 1, 1, 0, 0⟩, [⟨"user", "hi"⟩]⟩⟩,
         ⟨(MEMORY_NAMESPACE_CONVERSATION, "u"), "b",
          StoreValue.conv ⟨⟨2025, 1, 2, 0, 0⟩, [⟨"user", "bye"⟩]⟩⟩] ∧
    (MemoryManager.save_conversation
        (MemoryManager.save_conversation storeWithContext [⟨"user", "hi"⟩] "u"
          ⟨2025, 1, 1, 0, 0⟩ "a") [⟨"user", "bye"⟩] "u" ⟨2025, 1, 2, 0, 0⟩ "b").searchKey
        (MEMORY_NAMESPACE_CONVERSATION, "u") "a" =
      [⟨(MEMORY_NAMESPACE_CONVERSATION, "u"), "a",
        StoreValue.conv ⟨⟨2025, 1, 1, 0, 0⟩, [⟨"user", "hi"⟩]⟩⟩] ∧
    (MemoryManager.save_conversation
        (MemoryManager.save_conversation storeWithContext [⟨"user", "hi"⟩] "u"
          ⟨2025, 1, 1, 0, 0⟩ "a") [⟨"user", "bye"⟩] "u" ⟨2025, 1, 2, 0, 0⟩ "b").searchKey
        (MEMORY_NAMESPACE_CONVERSATION, "u") "b" =
      [⟨(MEMORY_NAMESPACE_CONVERSATION, "u"), "b",
        StoreValue.conv ⟨⟨2025, 1, 2, 0, 0⟩, [⟨"user", "bye"⟩]⟩⟩] :=
  C7_save_conversation_append_only storeWithContext [⟨"user", "hi"⟩] [⟨"user", "bye"⟩] "u"
    ⟨2025, 1, 1, 0, 0⟩ ⟨2025, 1, 2, 0, 0⟩ "a" "b" (by decide)
    (by decide) (by decide)

/-!
Claim C9.  Source: MemoryManager.get_user_profile (memory_store.py
lines 51-66) and schemas.UserProfile (schemas.py lines 19-26).
-/

/-- Claim C9 (confirmed): for every store and user id, get_user_profile
returns absent (None) exactly when the user-profile namespace contains
no records; when a record exists, the stored value is validated against
the UserProfile shape: a value stored under the UserProfile schema is
returned exactly as stored (no coercion, truncation or dropped fields),
and any other value makes the call fail with the SchemaMismatch
condition instead of being silently coerced. -/
theorem C9_get_user_profile_validation (s : Store) (u : String) :
    (MemoryManager.get_user_profile s u = .ok none ↔
      s.searchNs (MEMORY_NAMESPACE_USER_PROFILE, u) = []) ∧
    (∀ r rest, s.searchNs (MEMORY_NAMESPACE_USER_PROFILE, u) = r :: rest →
      (∀ p, r.value = StoreValue.profile p →
        MemoryManager.get_user_profile s u = .ok (some p)) ∧
      ((∀ p, r.value ≠ StoreValue.profile p) →
        MemoryManager.get_user_profile s u = .error "SchemaMismatch")) := by
  constructor
  · cases hl : s.searchNs (MEMORY_NAMESPACE_USER_PROFILE, u) with
    | nil => simp [MemoryManager.get_user_profile, hl]
    | cons r rest =>
      simp only [MemoryManager.get_user_profile, hl]
      constructor
      · intro h
        cases hv : r.value <;> simp [hv, validateProfile, Except.map] at h
      · intro h; cases h
  · intro r rest hl
    constructor
    · intro p hp
      simp [MemoryManager.get_user_profile, hl, hp, validateProfile, Except.map]
    · intro hnp
      cases hv : r.value with
      | profile p => exact absurd hv (hnp p)
      | business b => simp [MemoryManager.get_user_profile, hl, hv, validateProfile, Except.map]
      | conv cr => simp [MemoryManager.get_user_profile, hl, hv, validateProfile, Except.map]
      | context c => simp [MemoryManager.get_user_profile, hl, hv, validateProfile, Except.map]

/-- A profile value used by several witnesses: the "Aaron" profile of
the spec example. -/
def aaronProfile : UserProfile :=
  ⟨some "Aaron", some "developer", none, ["hiking", "chess"], [], defaultVoicePreferences⟩

/-- A store holding the Aaron profile under the profile namespace. -/
def storeWithProfile : Store :=
  ⟨[⟨(MEMORY_NAMESPACE_USER_PROFILE, "u"), "profile", StoreValue.profile aaronProfile⟩]⟩

/-- A store holding a context-shaped value in the profile namespace
(a schema mismatch on read). -/
def storeWithBadProfile : Store :=
  ⟨[⟨(MEMORY_NAMESPACE_USER_PROFILE, "u"), "profile",
    StoreValue.context defaultConversationContext⟩]⟩

/-- Witness for C9: on the empty store the profile is absent; on a store
holding the Aaron profile the exact stored profile is returned; on a
store holding a non-profile value the call fails with SchemaMismatch. -/
theorem C9_witness :
    MemoryManager.get_user_profile emptyStore "u" = .ok none ∧
    MemoryManager.get_user_profile storeWithProfile "u" = .ok (some aaronProfile) ∧
    MemoryManager.get_user_profile storeWithBadProfile "u" = .error "SchemaMismatch" := by
  refine ⟨?_, ?_, ?_⟩
  · exact (C9_get_user_profile_validation emptyStore "u").1.mpr (by decide)
  · exact ((C9_get_user_profile_validation storeWithProfile "u").2
      ⟨(MEMORY_NAMESPACE_USER_PROFILE, "u"), "profile", StoreValue.profile aaronProfile⟩ []
      (by decide)).1 aaronProfile (by decide)
  · exact ((C9_get_user_profile_validation storeWithBadProfile "u").2
      ⟨(MEMORY_NAMESPACE_USER_PROFILE, "u"), "profile",
        StoreValue.context defaultConversationContext⟩ []
      (by decide)).2 (fun p h => by cases h)

/-- When every record of the list validates, the comprehension succeeds
and produces one output per record. -/
lemma mapValidate_ok {α : Type} (f : StoreValue → Except String α) (l : List StoreRecord)
    (h : ∀ r ∈ l, ∃ a, f r.value = .ok a) :
    ∃ as, mapValidate f l = .ok as ∧ as.length = l.length := by
  induction l with
  | nil => exact ⟨[], rfl, rfl⟩
  | cons r rs ih =>
    obtain ⟨a, ha⟩ := h r (List.mem_cons_self r rs)
    obtain ⟨as, has, hlen⟩ := ih (fun x hx => h x (List.mem_cons_of_mem r hx))
    refine ⟨a :: as, ?_, by simp [hlen]⟩
    simp [mapValidate, ha, has, bind, Except.bind]

/-!
Claim C3.  Source: MemoryManager.search_memory (memory_store.py lines
169-203).  The hypotheses state that the values stored in the profile
and business namespaces validate against their declared schemas (the
data-model invariant of spec section 3); the conversation kind is kept
raw by the source and needs no such hypothesis.
-/

/-- Claim C3 (confirmed): for every query, user id and store contents
whose profile and business values validate, search_memory returns a
dictionary with exactly the keys user_profile, business_knowledge and
conversation_history, whose list lengths are at most 1, 5 and 3
respectively; every conversation_history element comes from a record
whose key differs from "context" (so the context record never appears);
and a kind with no records in its namespace maps to the empty list,
never to an absent or null entry. -/
theorem C3_search_memory_shape (s : Store) (q u : String)
    (H1 : ∀ r ∈ s.searchQuery (MEMORY_NAMESPACE_USER_PROFILE, u) q 1,
      ∃ p, r.value = StoreValue.profile p)
    (H2 : ∀ r ∈ s.searchQuery (MEMORY_NAMESPACE_BUSINESS, u) q 5,
      ∃ b, r.value = StoreValue.business b) :
    ∃ ups bes,
      MemoryManager.search_memory s q u = .ok
        [("user_profile", MemEntry.profiles ups),
         ("business_knowledge", MemEntry.businesses bes),
         ("conversation_history", MemEntry.convs
           (((s.searchQuery (MEMORY_NAMESPACE_CONVERSATION, u) q 3).filter
             (fun r => decide (r.key ≠ "context"))).map (fun r => r.value)))] ∧
      ups.length ≤ 1 ∧ bes.length ≤ 5 ∧
      (((s.searchQuery (MEMORY_NAMESPACE_CONVERSATION, u) q 3).filter
        (fun r => decide (r.key ≠ "context"))).map (fun r => r.value)).length ≤ 3 ∧
      (∀ v ∈ ((s.searchQuery (MEMORY_NAMESPACE_CONVERSATION, u) q 3).filter
          (fun r => decide (r.key ≠ "context"))).map (fun r => r.value),
        ∃ r, r ∈ s.records ∧ r.ns = (MEMORY_NAMESPACE_CONVERSATION, u) ∧
          r.key ≠ "context" ∧ r.value = v) ∧
      (s.searchNs (MEMORY_NAMESPACE_USER_PROFILE, u) = [] → ups = []) ∧
      (s.searchNs (MEMORY_NAMESPACE_BUSINESS, u) = [] → bes = []) ∧
      (s.searchNs (MEMORY_NAMESPACE_CONVERSATION, u) = [] →
        ((s.searchQuery (MEMORY_NAMESPACE_CONVERSATION, u) q 3).filter
          (fun r => decide (r.key ≠ "context"))).map (fun r => r.value) = []) := by
  obtain ⟨ups, hups, hlen1⟩ := mapValidate_ok validateProfile
    (s.searchQuery (MEMORY_NAMESPACE_USER_PROFILE, u) q 1)
    (fun r hr => by obtain ⟨p, hp⟩ := H1 r hr; exact ⟨p, by simp [hp, validateProfile]⟩)
  obtain ⟨bes, hbes, hlen2⟩ := mapValidate_ok validateBusiness
    (s.searchQuery (MEMORY_NAMESPACE_BUSINESS, u) q 5)
    (fun r hr => by obtain ⟨b, hb⟩ := H2 r hr; exact ⟨b, by simp [hb, validateBusiness]⟩)
  refine ⟨ups, bes, ?_, ?_, ?_, ?_, ?_, ?_, ?_, ?_⟩
  · simp [MemoryManager.search_memory, hups, hbes, bind, Except.bind]
  · exact hlen1 ▸ List.length_take_le _ _
  · exact hlen2 ▸ List.length_take_le _ _
  · calc (((s.searchQuery (MEMORY_NAMESPACE_CONVERSATION, u) q 3).filter
        (fun r => decide (r.key ≠ "context"))).map (fun r => r.value)).length
        = ((s.searchQuery (MEMORY_NAMESPACE_CONVERSATION, u) q 3).filter
            (fun r => decide (r.key ≠ "context"))).length := List.length_map _ _
      _ ≤ (s.searchQuery (MEMORY_NAMESPACE_CONVERSATION, u) q 3).length :=
          List.length_filter_le _ _
      _ ≤ 3 := List.length_take_le _ _
  · intro v hv
    obtain ⟨r, hrf, hrv⟩ := List.mem_map.mp hv
    have hmem := List.mem_filter.mp hrf
    have hkey : r.key ≠ "context" := by simpa using hmem.2
    have hrq : r ∈ s.searchNs (MEMORY_NAMESPACE_CONVERSATION, u) :=
      List.mem_of_mem_take hmem.1
    have hns := List.mem_filter.mp hrq
    exact ⟨r, hns.1, by simpa using hns.2, hkey, hrv⟩
  · intro h
    have hq : s.searchQuery (MEMORY_NAMESPACE_USER_PROFILE, u) q 1 = [] := by
      simp [Store.searchQuery, h]
    rw [hq] at hups
    simpa [mapValidate] using hups.symm
  · intro h
    have hq : s.searchQuery (MEMORY_NAMESPACE_BUSINESS, u) q 5 = [] := by
      simp [Store.searchQuery, h]
    rw [hq] at hbes
    simpa [mapValidate] using hbes.symm
  · intro h
    have hq : s.searchQuery (MEMORY_NAMESPACE_CONVERSATION, u) q 3 = [] := by
      simp [Store.searchQuery, h]
    rw [hq]
    rfl

/-- Witness for C3 on a store holding exactly the Aaron profile: the
result dict has the three keys, the caps hold, and the business and
conversation kinds come back as empty lists. -/
theorem C3_witness :
    ∃ ups bes,
      MemoryManager.search_memory storeWithProfile "developer" "u" = .ok
        [("user_profile", MemEntry.profiles ups),
         ("business_knowledge", MemEntry.businesses bes),
         ("conversation_history", MemEntry.convs
           (((storeWithProfile.searchQuery (MEMORY_NAMESPACE_CONVERSATION, "u")
              "developer" 3).filter
             (fun r => decide (r.key ≠ "context"))).map (fun r => r.value)))] ∧
      ups.length ≤ 1 ∧ bes.length ≤ 5 ∧
      (((storeWithProfile.searchQuery (MEMORY_NAMESPACE_CONVERSATION, "u")
          "developer" 3).filter
        (fun r => decide (r.key ≠ "context"))).map (fun r => r.value)).length ≤ 3 ∧
      (∀ v ∈ ((storeWithProfile.searchQuery (MEMORY_NAMESPACE_CONVERSATION, "u")
            "developer" 3).filter
          (fun r => decide (r.key ≠ "context"))).map (fun r => r.value),
        ∃ r, r ∈ storeWithProfile.records ∧ r.ns = (MEMORY_NAMESPACE_CONVERSATION, "u") ∧
          r.key ≠ "context" ∧ r.value = v) ∧
      (storeWithProfile.searchNs (MEMORY_NAMESPACE_USER_PROFILE, "u") = [] → ups = []) ∧
      (storeWithProfile.searchNs (MEMORY_NAMESPACE_BUSINESS, "u") = [] → bes = []) ∧
      (storeWithProfile.searchNs (MEMORY_NAMESPACE_CONVERSATION, "u") = [] →
        ((storeWithProfile.searchQuery (MEMORY_NAMESPACE_CONVERSATION, "u")
          "developer" 3).filter
          (fun r => decide (r.key ≠ "context"))).map (fun r => r.value) = []) :=
  C3_search_memory_shape storeWithProfile "developer" "u"
    (by
      intro r hr
      have : r = ⟨(MEMORY_NAMESPACE_USER_PROFILE, "u"), "profile",
          StoreValue.profile aaronProfile⟩ := by
        simpa [storeWithProfile, Store.searchQuery, Store.searchNs, List.filter] using hr
      subst this
      exact ⟨aaronProfile, rfl⟩)
    (by
      intro r hr
      simp [storeWithProfile, Store.searchQuery, Store.searchNs, List.filter,
        MEMORY_NAMESPACE_BUSINESS, MEMORY_NAMESPACE_USER_PROFILE] at hr)

/-!
Claim C4.  Source: agent_nodes.search_memory (agent_nodes.py lines
50-76).  The claim says the RETRIEVE stage on a zero-message state
returns an empty list for each of the three memory kinds.  The source
returns the empty dict instead: every per-kind key is absent, so the
claim as stated is false and is corrected to the empty-mapping form.
-/

/-- A zero-message state used by the C4 counterexample. -/
def stEmpty : AssistantState := ⟨[], "default-user", none, none⟩

/-- Counterexample for C4: on a zero-message state the RETRIEVE stage
returns the empty mapping, whose "user_profile" entry is absent — not
the present-with-empty-list entry the claim requires (the same holds
for the other two kinds). -/
theorem C4_counterexample :
    search_memory_node emptyStore stEmpty =
      .ok { stEmpty with memory_search_results := some [] } ∧
    dictGet ([] : MemoryDict) "user_profile" ≠ some (MemEntry.profiles []) ∧
    dictGet ([] : MemoryDict) "business_knowledge" ≠ some (MemEntry.businesses []) ∧
    dictGet ([] : MemoryDict) "conversation_history" ≠ some (MemEntry.convs []) := by
  refine ⟨rfl, ?_, ?_, ?_⟩ <;> simp [dictGet]

/-- Claim C4 (corrected): for every store and every state whose message
list is empty, the RETRIEVE stage returns without error, and its
memory-search result is the empty mapping (the empty dict, with no
per-kind entries at all) rather than a mapping of three empty lists. -/
theorem C4_amended_empty_dict (store : Store) (st : AssistantState)
    (h : st.messages = []) :
    search_memory_node store st = .ok { st with memory_search_results := some [] } := by
  unfold search_memory_node
  rw [if_pos h]

/-- Witness for C4 at a concrete zero-message state and a non-empty
store. -/
theorem C4_witness :
    search_memory_node storeWithProfile ⟨[], "u", none, none⟩ =
      .ok { messages := [], user_id := "u", memory_search_results := some [],
            spoken_response := none } :=
  C4_amended_empty_dict storeWithProfile ⟨[], "u", none, none⟩ rfl

/-! ## Pipeline lemmas -/

/-- The RENDER stage never changes the state. -/
lemma voice_output_fst (st : AssistantState) : (voice_output st).1 = st := by
  unfold voice_output
  cases h : st.spoken_response with
  | none => rfl
  | some r => by_cases hr : r = "" <;> simp [hr]

/-- A successful RETRIEVE stage only sets memory_search_results: the
message list, user id and spoken response are unchanged. -/
lemma search_memory_node_ok_messages (store : Store) (st s2 : AssistantState)
    (h : search_memory_node store st = .ok s2) :
    s2.messages = st.messages ∧ s2.user_id = st.user_id ∧
      s2.spoken_response = st.spoken_response := by
  unfold search_memory_node at h
  by_cases hm : st.messages = []
  · rw [if_pos hm] at h
    injection h with h
    subst h
    exact ⟨rfl, rfl, rfl⟩
  · rw [if_neg hm] at h
    cases hl : lastUserMessage st.messages with
    | none =>
      rw [hl] at h
      injection h with h
      subst h
      exact ⟨rfl, rfl, rfl⟩
    | some q =>
      rw [hl] at h
      cases hs : MemoryManager.search_memory store q st.user_id with
      | error e => simp [bind, Except.bind, hs] at h
      | ok r =>
        simp only [bind, Except.bind, hs] at h
        injection h with h
        subst h
        exact ⟨rfl, rfl, rfl⟩

/-- A successful GENERATE stage on a non-empty message list appends
exactly one (assistant) message. -/
lemma generate_response_ok_len (C : Collaborators) (store : Store) (st : AssistantState)
    (out : AssistantState × Store) (hmsg : st.messages ≠ [])
    (h : generate_response C store st = .ok out) :
    out.1.messages.length = st.messages.length + 1 := by
  unfold generate_response at h
  rw [if_neg hmsg] at h
  cases hf : format_memory_for_prompt (st.memory_search_results.getD []) with
  | error e => rw [hf] at h; simp [bind, Except.bind] at h
  | ok ctx =>
    rw [hf] at h
    simp only [bind, Except.bind] at h
    cases hu : update_memory C
        (st.messages ++ [⟨"assistant", C.llm (⟨"system", system_prompt ctx st.user_id⟩ ::
          st.messages.drop (st.messages.length - MAX_CONVERSATION_HISTORY))⟩])
        st.user_id store with
    | error e => rw [hu] at h; simp at h
    | ok s2 =>
      rw [hu] at h
      simp only at h
      injection h with h
      subst h
      simp

/-!
Claim C1.  Source: agent_nodes.generate_response (agent_nodes.py lines
119-140) and agent_nodes._update_memory (lines 198-212).  The claim says
a failing memory write is logged and never propagates, leaving the
computed response in GENERATE's output.  The source has no exception
handler around _update_memory: a failing write propagates out of
generate_response and the return statement carrying the assistant
message and spoken response is never reached.  The claim is corrected
accordingly.
-/

/-- The collaborator set whose profile extraction policy fails. -/
def failC : Collaborators :=
  ⟨fun _ => "ok", fun _ _ _ => .error "ExtractionFailure", fun _ _ s => .ok s,
   ⟨2025, 1, 1, 0, 0⟩, "uuid-1"⟩

/-- The collaborator set whose extraction policies succeed without
changing the store, with a fixed completion text. -/
def okC : Collaborators :=
  ⟨fun _ => "ok", fun _ _ s => .ok s, fun _ _ s => .ok s,
   ⟨2025, 1, 1, 0, 0⟩, "uuid-1"⟩

/-- A one-message state used by the C1 and C2 counterexamples. -/
def st1 : AssistantState := ⟨[⟨"user", "hi"⟩], "default-user", none, none⟩

/-- Counterexample for C1: on a turn state with one message, a failing
profile-memory write makes generate_response return that very error to
its caller — no output state carrying the already-computed assistant
message and spoken response is produced. -/
theorem C1_counterexample :
    st1.messages.length = 1 ∧
    generate_response failC emptyStore st1 = .error "ExtractionFailure" :=
  ⟨rfl, rfl⟩

/-- Claim C1 (corrected): for every turn state with at least one message
(and whose retrieved memory formats without error), the memory-update
side effect gates GENERATE's result: if the memory-write sequence fails,
the error propagates to GENERATE's caller and the already-computed
assistant message and spoken response are not present in any output
state; only when the writes succeed does GENERATE return the state with
the assistant message appended and the spoken response set. -/
theorem C1_memory_write_failure_propagates (C : Collaborators) (store : Store)
    (st : AssistantState) (ctx : String)
    (hmsg : st.messages ≠ [])
    (hfmt : format_memory_for_prompt (st.memory_search_results.getD []) = .ok ctx) :
    (∀ e, update_memory C
        (st.messages ++ [⟨"assistant", C.llm (⟨"system", system_prompt ctx st.user_id⟩ ::
          st.messages.drop (st.messages.length - MAX_CONVERSATION_HISTORY))⟩])
        st.user_id store = .error e →
      generate_response C store st = .error e) ∧
    (∀ s2, update_memory C
        (st.messages ++ [⟨"assistant", C.llm (⟨"system", system_prompt ctx st.user_id⟩ ::
          st.messages.drop (st.messages.length - MAX_CONVERSATION_HISTORY))⟩])
        st.user_id store = .ok s2 →
      generate_response C store st = .ok
        ({ st with
           messages := st.messages ++ [⟨"assistant", C.llm (⟨"system",
             system_prompt ctx st.user_id⟩ ::
             st.messages.drop (st.messages.length - MAX_CONVERSATION_HISTORY))⟩],
           spoken_response := some (optimize_for_speech (C.llm (⟨"system",
             system_prompt ctx st.user_id⟩ ::
             st.messages.drop (st.messages.length - MAX_CONVERSATION_HISTORY)))) }, s2)) := by
  constructor
  · intro e he
    unfold generate_response
    rw [if_neg hmsg]
    simp only [hfmt, bind, Except.bind]
    rw [he]
  · intro s2 hs2
    unfold generate_response
    rw [if_neg hmsg]
    simp only [hfmt, bind, Except.bind]
    rw [hs2]

/-- Witness for C1: with succeeding extraction policies on the same
one-message state, GENERATE returns the output state carrying the
assistant message and the spoken response. -/
theorem C1_witness :
    ∃ out, generate_response okC emptyStore st1 = .ok out ∧
      out.1.spoken_response = some "ok" ∧ out.1.messages.length = 2 := by
  have h := (C1_memory_write_failure_propagates okC emptyStore st1 ""
    (by decide) rfl).2
    (MemoryManager.save_conversation emptyStore
      (st1.messages ++ [(⟨"assistant", okC.llm ((⟨"system",
        system_prompt "" st1.user_id⟩ : Message) ::
        st1.messages.drop (st1.messages.length - MAX_CONVERSATION_HISTORY))⟩ : Message)])
      st1.user_id okC.now okC.freshKey)
    rfl
  exact ⟨_, h, rfl, rfl⟩

/-!
Claim C2.  Source: agent_nodes.voice_input (agent_nodes.py lines 30-47)
and main.create_assistant (main.py lines 43-59).  On an empty
transcript, CAPTURE does emit exactly one fallback playback call,
append no messages and return the state unchanged — but the graph built
in main.py chains the four stages with unconditional edges, so the
remaining RETRIEVE, GENERATE and RENDER stages still run on the
unchanged state.  On a state carrying messages from earlier turns,
GENERATE then produces (and RENDER speaks) a fresh response even though
nothing was captured.  The short-circuit part of the claim is false and
is corrected.
-/

/-- Counterexample for C2: with an empty transcript on a state holding
one (earlier) user message, CAPTURE returns the state unchanged with
the single fallback playback call, yet the full turn returns a state
with two messages: GENERATE ran and appended an assistant response, so
the turn did not short-circuit. -/
theorem C2_counterexample :
    voice_input "" st1 =
      (st1, ["I didn\x27t catch that. Could you please try again?"]) ∧
    st1.messages.length = 1 ∧
    (run_turn okC "" emptyStore st1).map (fun out => out.1.messages.length) = .ok 2 :=
  ⟨rfl, rfl, rfl⟩

/-- Claim C2 (corrected): for every input state, when the capture
collaborator returns an empty transcript the CAPTURE stage emits exactly
one audible fallback playback call, appends no messages and returns the
state unchanged; but the turn does not short-circuit: the remaining
stages still run on the unchanged state, and whenever the turn completes
on a state that already had messages, GENERATE has appended exactly one
further (assistant) message. -/
theorem C2_capture_no_short_circuit :
    (∀ st : AssistantState, voice_input "" st =
      (st, ["I didn\x27t catch that. Could you please try again?"])) ∧
    (∀ (C : Collaborators) (store : Store) (st : AssistantState)
      (res : AssistantState × Store × List String),
      st.messages ≠ [] → run_turn C "" store st = .ok res →
      res.1.messages.length = st.messages.length + 1) := by
  constructor
  · intro st
    unfold voice_input
    rw [if_pos rfl]
  · intro C store st res hmsg hrun
    unfold run_turn at hrun
    rw [show voice_input "" st =
      (st, ["I didn\x27t catch that. Could you please try again?"]) from by
        unfold voice_input; rw [if_pos rfl]] at hrun
    simp only [bind, Except.bind] at hrun
    cases hs2 : search_memory_node store st with
    | error e => rw [hs2] at hrun; simp at hrun
    | ok s2 =>
      rw [hs2] at hrun
      simp only at hrun
      cases hg : generate_response C store s2 with
      | error e => rw [hg] at hrun; simp at hrun
      | ok pr =>
        rw [hg] at hrun
        obtain ⟨s3, store2⟩ := pr
        simp only at hrun
        rcases hvo : voice_output s3 with ⟨s4, calls2⟩
        rw [hvo] at hrun
        simp only at hrun
        injection hrun with hrun
        have hs4 : s4 = s3 := by
          have hfst := voice_output_fst s3
          rw [hvo] at hfst
          exact hfst
        have hms := (search_memory_node_ok_messages store st s2 hs2).1
        have hlen := generate_response_ok_len C store s2 (s3, store2)
          (by rw [hms]; exact hmsg) hg
        rw [← hrun]
        simp only [hs4]
        rw [hlen, hms]

/-- Witness for C2: the capture part applied at the one-message state,
and the stages-still-run part applied to the concrete completed turn of
the counterexample setting. -/
theorem C2_witness :
    voice_input "" st1 =
      (st1, ["I didn\x27t catch that. Could you please try again?"]) ∧
    (match run_turn okC "" emptyStore st1 with
     | .ok res => res.1.messages.length = st1.messages.length + 1
     | .error _ => False) := by
  constructor
  · exact C2_capture_no_short_circuit.1 st1
  · cases hrun : run_turn okC "" emptyStore st1 with
    | error e =>
      have hok : (run_turn okC "" emptyStore st1).isOk = true := rfl
      rw [hrun] at hok
      exact Bool.noConfusion hok
    | ok res =>
      exact C2_capture_no_short_circuit.2 okC emptyStore st1 res (by decide) hrun

/-!
Claim C8.  Source: agent_nodes._format_memory_for_prompt
(agent_nodes.py lines 156-195).
-/

set_option maxRecDepth 4000 in
/-- Claim C8 (confirmed): the memory formatter reproduces the specified
blocks exactly.  For the Aaron profile (name "Aaron", role "developer",
interests hiking and chess, no expertise) the formatted output is
exactly the four specified lines joined by newlines; for every past
conversation the block lists at most the last two messages, exactly the
formatted lines of those messages; and every over-long content line is
the role capitalized followed by the first 100 characters and an
ellipsis — in particular for a 150-character assistant message. -/
theorem C8_formatter :
    format_memory_for_prompt
        [("user_profile", MemEntry.profiles [aaronProfile]),
         ("business_knowledge", MemEntry.businesses []),
         ("conversation_history", MemEntry.convs [])] =
      .ok "USER PROFILE:\n- Name: Aaron\n- Role: developer\n- Interests: hiking, chess" ∧
    (∀ r : ConvRecord,
      convLines (StoreValue.conv r) =
        .ok (("- Date: " ++ formatTimestamp r.timestamp)
          :: (r.messages.drop (r.messages.length - 2)).map formatConvMsg) ∧
      ((r.messages.drop (r.messages.length - 2)).map formatConvMsg).length ≤ 2) ∧
    (∀ m : Message, m.content.length > 100 →
      formatConvMsg m = "  * " ++ pyCapitalize m.role ++ ": " ++
        (m.content.take 100 ++ "...")) ∧
    formatConvMsg ⟨"assistant", String.mk (List.replicate 150 'a')⟩ =
      "  * Assistant: " ++ String.mk (List.replicate 100 'a') ++ "..." := by
  refine ⟨rfl, ?_, ?_, ?_⟩
  · intro r
    refine ⟨rfl, ?_⟩
    rw [List.length_map, List.length_drop]
    omega
  · intro m hm
    unfold formatConvMsg
    rw [if_pos hm]
  · decide

set_option maxRecDepth 4000 in
/-- Witness for C8: the truncation clause applied to a concrete
150-character user message. -/
theorem C8_witness :
    formatConvMsg ⟨"user", String.mk (List.replicate 150 'b')⟩ =
      "  * " ++ pyCapitalize "user" ++ ": " ++
        ((String.mk (List.replicate 150 'b')).take 100 ++ "...") :=
  C8_formatter.2.2.1 ⟨"user", String.mk (List.replicate 150 'b')⟩ (by decide)

/-!
Claim C10.  Source: voice_io.optimize_for_speech (voice_io.py lines
126-151).  The claim asserts idempotence on the ground that the output
never contains URL-like tokens, newline runs or `**`.  That premise is
false: the `**` removal runs last, so deleting `**` can create a newline
run (or a URL token) that the earlier substitutions no longer see — on
"\n**\n" the first application yields "\n\n" and the second collapses it
to "\n".  Idempotence holds exactly when the first output really is
clean, which is the corrected statement.
-/

/-- The URL substitution is the identity on a list with no match. -/
lemma subURLGo_id (fuel : Nat) :
    ∀ l : List Char, hasURL l = false → subURLGo fuel l = l := by
  induction fuel with
  | zero => intro l _; rfl
  | succ n ih =>
    intro l h
    cases l with
    | nil => rfl
    | cons c cs =>
      unfold hasURL at h
      rw [Bool.or_eq_false_iff] at h
      cases hm : matchURL (c :: cs) with
      | some rest => rw [hm] at h; simp at h
      | none =>
        unfold subURLGo
        rw [hm]
        exact congrArg (c :: ·) (ih cs h.2)

lemma subURL_id (l : List Char) (h : hasURL l = false) : subURL l = l :=
  subURLGo_id l.length l h

/-- The newline collapsing is the identity on a list with no newline
run. -/
lemma collapseNL_id : ∀ l : List Char, hasDoubleNL l = false → collapseNL l = l := by
  intro l
  induction l with
  | nil => intro _; rfl
  | cons c cs ih =>
    intro h
    unfold hasDoubleNL at h
    rw [Bool.or_eq_false_iff] at h
    unfold collapseNL
    rw [if_neg (by rw [h.1]; exact Bool.false_ne_true)]
    exact congrArg (c :: ·) (ih h.2)

/-- The emphasis-marker removal is the identity on a list with no pair
of adjacent stars. -/
lemma removeStars_id : ∀ l : List Char, hasStarStar l = false → removeStars l = l := by
  intro l
  induction l with
  | nil => intro _; rfl
  | cons c cs ih =>
    intro h
    unfold hasStarStar at h
    rw [Bool.or_eq_false_iff] at h
    unfold removeStars
    rw [if_neg (by rw [h.1]; exact Bool.false_ne_true)]
    exact congrArg (c :: ·) (ih h.2)

/-- Counterexample for C10: optimize_for_speech is not idempotent.  On
the input "\n**\n" the first application removes the two stars and
produces "\n\n", which is not a fixed point: the second application
collapses the newline run the late star-removal created. -/
theorem C10_counterexample :
    optimize_for_speech "\n**\n" = "\n\n" ∧
    optimize_for_speech (optimize_for_speech "\n**\n") = "\n" ∧
    optimize_for_speech (optimize_for_speech "\n**\n") ≠
      optimize_for_speech "\n**\n" := by
  refine ⟨rfl, rfl, ?_⟩
  decide

/-- Claim C10 (corrected): optimize_for_speech is idempotent exactly on
the inputs for which the claimed premise really holds of the output:
whenever the first application's result contains no URL-like token, no
two adjacent newlines and no occurrence of "**", a second application
leaves it unchanged.  (The premise fails for some inputs, such as
"\n**\n", so idempotence does not hold universally.) -/
theorem C10_idempotent_on_clean_output (s : String)
    (h1 : hasURL (optimize_for_speech s).data = false)
    (h2 : hasDoubleNL (optimize_for_speech s).data = false)
    (h3 : hasStarStar (optimize_for_speech s).data = false) :
    optimize_for_speech (optimize_for_speech s) = optimize_for_speech s := by
  have h1' : hasURL (removeStars (collapseNL (subURL s.data))) = false := h1
  have h2' : hasDoubleNL (removeStars (collapseNL (subURL s.data))) = false := h2
  have h3' : hasStarStar (removeStars (collapseNL (subURL s.data))) = false := h3
  show String.mk (removeStars (collapseNL (subURL
    (removeStars (collapseNL (subURL s.data)))))) =
    String.mk (removeStars (collapseNL (subURL s.data)))
  rw [subURL_id _ h1', collapseNL_id _ h2', removeStars_id _ h3']

/-- Witness for C10 at an input whose output is clean: the URL becomes
"link", the newline run collapses and the stars vanish, so the second
application is the identity. -/
theorem C10_witness :
    optimize_for_speech
        (optimize_for_speech "hello **world** visit http://a.io\n\nbye") =
      optimize_for_speech "hello **world** visit http://a.io\n\nbye" :=
  C10_idempotent_on_clean_output "hello **world** visit http://a.io\n\nbye"
    (by decide) (by decide) (by decide)
